import Mathlib

/-!
Shallow embedding of the fiftyone front-end core under verification:

* the view-bar state machine (`viewBarMachine.js`): `createStage`,
  `createBar`, the `initializing.onDone` assignment, the `running` entry
  action, and the `STAGE.ADD` / `STAGE.COMMIT` / `STAGE.DELETE` handlers;
* the session-sync view setter (`useSetView`): the recoil transaction and
  the `onCompleted` handler of the commit mutation;
* the derived-state selectors (`selectors.ts`): `selectedLabels` (get and
  set), `selectedLabelIds`, `targets`, `getTarget`, and the `fiftyone`
  polling loop.

Effects are made explicit: `uuid()` and `spawn(...)` results are passed in
as fresh identifiers, fetches become function arguments or attempt streams,
and thrown exceptions become `Option`.
-/

namespace ViewBar

/-- Catalog of available stage kinds fetched from `GET /stages`
(`event.data.stages`), modelled by the list of stage names. -/
abbrev Catalog := List String

/-- The record built by `createStage` in `viewBarMachine.js`: every field of
the stage except the spawned actor reference, which the orchestrator spreads
in afterwards. -/
structure StageData where
  id : Nat
  submitted : Bool
  stage : String
  parameters : List (String × String)
  stageInfo : Option Catalog
  index : Nat
  focusOnInit : Bool
  hideDelete : Bool
deriving Repr, DecidableEq

/-- Translation of `createStage(stage, index, stageInfo, focusOnInit,
hideDelete)`; the `uuid()` call is an effect, so the generated identifier is
passed in as `theId`. -/
def createStage (theId : Nat) (stage : String) (index : Nat)
    (stageInfo : Option Catalog) (focusOnInit : Bool) (hideDelete : Bool) :
    StageData :=
  { id := theId, submitted := false, stage := stage, parameters := [],
    stageInfo := stageInfo, index := index, focusOnInit := focusOnInit,
    hideDelete := hideDelete }

/-- One entry of the orchestrator's `stages` list once the machine is
running: the stage record spread together with the spawned actor's address
(`ref`). -/
structure StageEntry where
  data : StageData
  ref : Nat
deriving Repr, DecidableEq

/-- The machine context before `running`: `stages` still holds the raw stage
expressions (strings) the bar was constructed with. -/
structure BarCtx where
  port : Nat
  stages : List String
  stageInfo : Option Catalog
deriving Repr, DecidableEq

/-- Translation of `createBar(port)`. -/
def createBar (port : Nat) : BarCtx :=
  { port := port, stages := [], stageInfo := none }

/-- The `initializing.onDone` assignment: stores the fetched catalog in
`stageInfo` and seeds `stages` with `[""]` when the bar was constructed with
zero stages.  On a non-empty list the source evaluates the unbound
identifier `stages` (not `ctx.stages`) and throws a `ReferenceError`,
modelled as `none`. -/
def initializingOnDone (ctx : BarCtx) (fetched : Catalog) : Option BarCtx :=
  if ctx.stages.length = 0 then
    some { ctx with stageInfo := some fetched, stages := [""] }
  else
    none

/-- The indexed map of the `running` entry action: each raw stage value at
position `i` becomes `createStage(stage, i, ctx.stageInfo, false, true)`
spread with a freshly spawned actor reference; `fresh` seeds the
uuid/actor-address supply. -/
def materialize (info : Option Catalog) (fresh : Nat) :
    Nat → List String → List StageEntry
  | _, [] => []
  | i, s :: rest =>
      { data := createStage (fresh + i) s i info false true,
        ref := fresh + i } :: materialize info fresh (i + 1) rest

/-- The `running` entry action applied to a machine context. -/
def runningEntry (ctx : BarCtx) (fresh : Nat) : List StageEntry :=
  materialize ctx.stageInfo fresh 0 ctx.stages

/-- The whole initialization path: a successful descriptor fetch
(`initializing.onDone`) followed by the `running` entry action. -/
def initializeBar (ctx : BarCtx) (fetched : Catalog) (fresh : Nat) :
    Option (List StageEntry) :=
  (initializingOnDone ctx fetched).map (fun c => runningEntry c fresh)

/-- The `STAGE.ADD {index}` assign: inserts `createStage("", e.index,
ctx.stageInfo, true, false)` with a freshly spawned actor between
`stages.slice(0, e.index)` and `stages.slice(e.index)`.  The subsequent
`send` packages `to: stages[0].ref` inside the event object rather than in
the send options, so the `STAGE.SET_HIDE_DELETE` event is raised on the bar
machine itself, which has no handler for it; no stage-list entry changes. -/
def stageAdd (info : Option Catalog) (stages : List StageEntry)
    (eIndex : Nat) (fresh : Nat) : List StageEntry :=
  stages.take eIndex
    ++ [{ data := createStage fresh "" eIndex info true false, ref := fresh }]
    ++ stages.drop eIndex

/-- The `STAGE.COMMIT {stage}` assign: `newStages[e.stage.index] =
{ ...e.stage, ref: newStages[e.stage.index].ref }`.  When
`e.stage.index` is out of range the source reads `.ref` of `undefined` and
throws, modelled as `none`. -/
def stageCommit (stages : List StageEntry) (s : StageData) :
    Option (List StageEntry) :=
  match stages.get? s.index with
  | none => none
  | some old => some (stages.set s.index { data := s, ref := old.ref })

/-- The `STAGE.DELETE {stage}` assign: a sole remaining stage is
replaced by `{ ...e.stage, hideDelete: true, ref: stages[0].ref }`;
otherwise the entry whose `id` matches the payload's is filtered out.  As
with `STAGE.ADD`, the trailing `STAGE.SET_HIDE_DELETE` send carries `to`
inside the event and therefore leaves the stage list unchanged. -/
def stageDelete (stages : List StageEntry) (s : StageData) :
    List StageEntry :=
  match stages with
  | [st] => [{ data := { s with hideDelete := true }, ref := st.ref }]
  | _ => stages.filter (fun st => st.data.id != s.id)

end ViewBar

namespace Selectors

/-- A selected-label record as the `selectedLabels` getter reads it from the
state description (camelCase keys: `selectedLabels`, `labelId`). -/
structure SelectedLabel where
  labelId : String
  field : String
  sampleId : String
deriving Repr, DecidableEq

/-- The record the `selectedLabels` setter serializes: the label's fields
spread together with the mapping key added under the snake_case name
`label_id`. -/
structure SerializedLabel where
  label : SelectedLabel
  label_id : String
deriving Repr, DecidableEq

/-- The dataset slice of the state description used by the mask-target
selectors: `defaultMaskTargets` (target key to value) and `maskTargets`
(field to its own target-to-value mapping), each possibly absent. -/
structure Dataset where
  name : Option String
  defaultMaskTargets : Option (List (String × String))
  maskTargets : Option (List (String × List (String × String)))
deriving Repr, DecidableEq

/-- The slice of `atoms.stateDescription` these selectors touch.  The
camelCase `selectedLabels` field is what the getter reads; the snake_case
`selected_labels` field is what the setter writes. -/
structure StateDescription where
  dataset : Option Dataset
  selectedLabels : Option (List SelectedLabel)
  selected_labels : List SerializedLabel
deriving Repr, DecidableEq

/-- JS object key lookup on an entry list: the value at the key when the key
is present (`k in m` together with `m[k]`). -/
def objGet {α : Type} (m : List (String × α)) (k : String) : Option α :=
  (m.find? (fun p => p.1 == k)).map (fun p => p.2)

/-- The `selectedLabels` selector's `get`:
`stateDescription?.selectedLabels || []` turned by `Object.fromEntries` into
a mapping keyed by each label's `labelId`. -/
def selectedLabelsGet (sd : Option StateDescription) :
    List (String × SelectedLabel) :=
  let labels := (sd.bind StateDescription.selectedLabels).getD []
  labels.map (fun l => (l.labelId, l))

/-- The `selectedLabelIds` selector: the key set of the `selectedLabels`
mapping (`new Set(Object.keys(labels))`). -/
def selectedLabelIds (sd : Option StateDescription) : List String :=
  (selectedLabelsGet sd).map Prod.fst

/-- The socket message emitted by the `selectedLabels` setter:
`packageMessage("set_selected_labels", { selected_labels: labels })`. -/
structure SocketMessage where
  type : String
  selected_labels : List SerializedLabel
deriving Repr, DecidableEq

/-- The `selectedLabels` selector's `set`: serializes the mapping into
records carrying each key as `label_id`, writes them under the state's
snake_case `selected_labels` key, and emits the socket notification. -/
def selectedLabelsSet (sd : StateDescription)
    (value : List (String × SelectedLabel)) :
    StateDescription × SocketMessage :=
  let labels := value.map (fun p => { label := p.2, label_id := p.1 })
  ({ sd with selected_labels := labels },
   { type := "set_selected_labels", selected_labels := labels })

/-- The `targets` selector: `dataset?.defaultMaskTargets || {}` paired
with `dataset?.maskTargets || {}`. -/
def targetsSel (sd : StateDescription) :
    List (String × String) × List (String × List (String × String)) :=
  ((sd.dataset.bind Dataset.defaultMaskTargets).getD [],
   (sd.dataset.bind Dataset.maskTargets).getD [])

/-- The lookup function returned by the `getTarget` selector:
`field in fields ? fields[field][target] : defaults[target]`. -/
def getTarget (sd : StateDescription) (field target : String) :
    Option String :=
  match objGet (targetsSel sd).2 field with
  | some inner => objGet inner target
  | none => objGet (targetsSel sd).1 target

/-- One attempt of the `fiftyone` selector's polling loop, as seen at the
`if (response) break / while (response === null)` test: `none` when the
fetch or JSON parse threw or the body was `null`, `some r` for a non-null
body `r`; `truthy` is JS truthiness on response values. -/
def fiftyoneLoop {R : Type} (truthy : R → Bool) (attempts : Nat → Option R) :
    Nat → Nat → Option (R × Nat)
  | 0, _ => none
  | Nat.succ fuel, i =>
      match attempts i with
      | some r => if truthy r then some (r, 0) else some (r, 2000)
      | none =>
          (fiftyoneLoop truthy attempts fuel (i + 1)).map
            (fun p => (p.1, p.2 + 2000))

end Selectors

namespace SessionSync

/-- The Root Snapshot atoms involved in the `useSetView` success path: the
four written atoms (`view`, `viewCls`, `sampleFields`, `frameFields`) plus
the untouched remainder of the session state. -/
structure RootSnapshot where
  view : List String
  viewCls : Option String
  sampleFields : List String
  frameFields : List String
  stateDescription : Option Selectors.StateDescription
  modal : Bool
deriving Repr, DecidableEq

/-- The payload of a successful `setView` commit mutation:
`{ view, dataset: { viewCls, frameFields, sampleFields } }`. -/
structure SetViewResponse where
  view : List String
  viewCls : Option String
  frameFields : List String
  sampleFields : List String
deriving Repr, DecidableEq

/-- The `useRecoilTransaction_UNSTABLE` setter of `useSetView`: a single
transaction writing `viewCls`, `sampleFields`, `frameFields`, and `view`.
In this embedding the transaction is one total function on the snapshot, so
a reader sees either the argument snapshot or the result, never a state in
between. -/
def setViewSetter (viewCls : Option String)
    (sampleFields frameFields view : List String) (snap : RootSnapshot) :
    RootSnapshot :=
  { snap with
    viewCls := viewCls, sampleFields := sampleFields,
    frameFields := frameFields, view := view }

/-- The `onCompleted` handler of the commit mutation: feeds the response
into the transaction setter, passing both field schemas through
`collapseFields` (a function imported from outside this module in the
source, hence abstract here). -/
def onCompleted (collapseFields : List String → List String)
    (resp : SetViewResponse) (snap : RootSnapshot) : RootSnapshot :=
  setViewSetter resp.viewCls (collapseFields resp.sampleFields)
    (collapseFields resp.frameFields) resp.view snap

end SessionSync

open ViewBar Selectors SessionSync

/-- Concrete running bar with one stage followed by `STAGE.ADD` at index 0,
used to test the index-contiguity invariant. -/
def c1Bar : List StageEntry :=
  stageAdd (some ["match", "limit"])
    (runningEntry
      { port := 5151, stages := [""], stageInfo := some ["match", "limit"] } 0)
    0 10

/-- Concrete running bar with one stage followed by `STAGE.ADD` at index 1,
used to test the first-stage delete-affordance invariant. -/
def c2Bar : List StageEntry :=
  stageAdd (some ["match", "limit"])
    (runningEntry
      { port := 5151, stages := [""], stageInfo := some ["match", "limit"] } 0)
    1 10

/-- Concrete non-blank submitted stage used as the sole stage of a bar and
as the `STAGE.DELETE` event payload. -/
def c3Stage : StageData :=
  { id := 7, submitted := true, stage := "limit",
    parameters := [("limit", "10")], stageInfo := some ["match", "limit"],
    index := 0, focusOnInit := false, hideDelete := false }

/-- Concrete state description with an empty selected-labels sequence. -/
def c4State : StateDescription :=
  { dataset := none, selectedLabels := some [], selected_labels := [] }

/-- Concrete selected-label record keyed under "a". -/
def c4Label : SelectedLabel :=
  { labelId := "a", field := "ground_truth", sampleId := "s1" }

/-- Concrete two-stage running list and commit payload for index 1. -/
def c5e0 : StageEntry :=
  { data := createStage 0 "match" 0 none false true, ref := 100 }

/-- Second entry of the concrete two-stage list for the commit claim. -/
def c5e1 : StageEntry :=
  { data := createStage 1 "limit" 1 none false true, ref := 101 }

/-- Concrete submitted payload of a `STAGE.COMMIT` aimed at index 1. -/
def c5s : StageData :=
  { id := 2, submitted := true, stage := "limit",
    parameters := [("limit", "5")], stageInfo := none, index := 1,
    focusOnInit := false, hideDelete := false }

/-- Concrete attempt stream for the polling loop: three null responses, then
the value 42. -/
def c8Attempts : Nat → Option Nat := fun i => if i < 3 then none else some 42

/-- Concrete JS truthiness on the polling responses: every number truthy. -/
def c8Truthy : Nat → Bool := fun _ => true

/-- Concrete state description whose dataset has a per-field mask-target
mapping for "ground_truth" and a dataset-wide default mapping. -/
def c9State : StateDescription :=
  { dataset := some
      { name := some "quickstart",
        defaultMaskTargets := some [("1", "default1")],
        maskTargets := some [("ground_truth", [("1", "car")])] },
    selectedLabels := none, selected_labels := [] }

/-- Helper for C1: the running entry action assigns each materialized stage
the index `base + position`. -/
theorem materialize_index (info : Option Catalog) (fresh : Nat) :
    ∀ (raw : List String) (base i : Nat)
      (h : i < (materialize info fresh base raw).length),
      ((materialize info fresh base raw).get ⟨i, h⟩).data.index = base + i := by
  intro raw
  induction raw with
  | nil => intro base i h; simp [materialize] at h
  | cons s rest ih =>
      intro base i h
      match i with
      | 0 => simp [materialize, createStage]
      | Nat.succ j =>
          have hl : j < (materialize info fresh (base + 1) rest).length := by
            simpa [materialize] using h
          have h2 := ih (base + 1) j hl
          simp only [materialize, List.get_cons_succ] at h2 ⊢
          omega

/-- C1 (amended): immediately after the bar enters `running` (before any
`STAGE.ADD`/`STAGE.DELETE`), every stage's `index` field equals its position
in the orchestrator's stage list.  The ADD and DELETE handlers do not
renumber the pre-existing entries, so the invariant is not maintained by
those events (see the counterexample). -/
theorem c1_running_entry_index (ctx : BarCtx) (fresh : Nat) (i : Nat)
    (h : i < (runningEntry ctx fresh).length) :
    ((runningEntry ctx fresh).get ⟨i, h⟩).data.index = i := by
  have h2 := materialize_index ctx.stageInfo fresh ctx.stages 0 i h
  simpa using h2

/-- Witness for C1 at a concrete one-stage bar. -/
theorem c1_running_entry_index_witness :
    0 < (runningEntry { port := 1, stages := ["match"], stageInfo := none }
          0).length ∧
    ((runningEntry { port := 1, stages := ["match"], stageInfo := none }
          0).get ⟨0, by decide⟩).data.index = 0 :=
  ⟨by decide,
   c1_running_entry_index
     { port := 1, stages := ["match"], stageInfo := none } 0 0 (by decide)⟩

/-- C1 counterexample: after a `STAGE.ADD {index: 0}` on a running one-stage
bar the index fields read [0, 0] while the positions are [0, 1] — the stage
at position 1 keeps index 0, so the index fields do not equal 0..n-1. -/
theorem c1_counterexample :
    c1Bar.map (fun e => e.data.index) ≠ List.range c1Bar.length := by decide

/-- C2 at the failing input: a running one-stage bar (its sole stage
materialized with hideDelete = true) after `STAGE.ADD {index: 1}` has two
stages whose hideDelete fields read [true, false] — the first stage's
hideDelete stays true even though the bar now has two stages, because the
`STAGE.SET_HIDE_DELETE` send never rewrites the orchestrator's list entry
(the `to` address sits inside the event object, so the event self-sends and
is dropped). -/
theorem c2_first_stage_flag :
    c2Bar.length = 2 ∧
    c2Bar.map (fun e => e.data.hideDelete) = [true, false] := by decide

/-- C3 counterexample: deleting the sole stage of a concrete bar (payload =
that same submitted "limit" stage) keeps the payload's data with hideDelete
forced true rather than resetting to a blank stage: the stage name remains
"limit", submitted remains true and the parameters remain non-empty. -/
theorem c3_counterexample :
    (stageDelete [{ data := c3Stage, ref := 3 }] c3Stage).map
        (fun e => (e.data.stage, e.data.submitted, e.data.parameters)) =
      [("limit", true, [("limit", "10")])] ∧
    [("limit", true, [("limit", "10")])] ≠
      [(("" : String), false, ([] : List (String × String)))] :=
  ⟨rfl, by decide⟩

/-- C3 (amended): processing `STAGE.DELETE` on a one-stage bar leaves the
list at length 1 — the bar never becomes empty — and the retained entry
keeps the actor reference that was at position 0 with hideDelete forced
true; its remaining fields are the event payload's, not a blank stage's. -/
theorem c3_singleton_delete (st : StageEntry) (e : StageData) :
    stageDelete [st] e =
      [{ data := { e with hideDelete := true }, ref := st.ref }] ∧
    (stageDelete [st] e).length = 1 :=
  ⟨rfl, rfl⟩

/-- C5: a `STAGE.COMMIT {stage}` whose `stage.index` is a valid position
replaces exactly the list entry at that position with the submitted payload
while keeping that position's actor reference, and leaves every other list
entry unchanged. -/
theorem c5_commit_frame (stages : List StageEntry) (s : StageData)
    (old : StageEntry) (h : stages.get? s.index = some old) :
    stageCommit stages s =
      some (stages.set s.index { data := s, ref := old.ref }) ∧
    (stages.set s.index { data := s, ref := old.ref }).get? s.index =
      some { data := s, ref := old.ref } ∧
    ∀ j, j ≠ s.index →
      (stages.set s.index { data := s, ref := old.ref }).get? j =
        stages.get? j := by
  have h2 : stages[s.index]? = some old := by
    simpa [List.get?_eq_getElem?] using h
  refine ⟨by simp [stageCommit, h2], ?_, ?_⟩
  · obtain ⟨hlt, -⟩ := List.get?_eq_some.mp h
    exact List.get?_set_eq_of_lt _ hlt
  · intro j hj
    exact List.get?_set_ne _ _ (Ne.symm hj)

/-- Witness for C5: the commit payload `c5s` (index 1) applied to the
concrete two-stage list replaces slot 1, keeps ref 101 there, and leaves
slot 0 untouched. -/
theorem c5_commit_frame_witness :
    [c5e0, c5e1].get? c5s.index = some c5e1 ∧
    (stageCommit [c5e0, c5e1] c5s =
        some ([c5e0, c5e1].set c5s.index { data := c5s, ref := c5e1.ref }) ∧
      ([c5e0, c5e1].set c5s.index
          { data := c5s, ref := c5e1.ref }).get? c5s.index =
        some { data := c5s, ref := c5e1.ref } ∧
      ∀ j, j ≠ c5s.index →
        ([c5e0, c5e1].set c5s.index { data := c5s, ref := c5e1.ref }).get? j =
          [c5e0, c5e1].get? j) :=
  ⟨by decide, c5_commit_frame [c5e0, c5e1] c5s c5e1 (by decide)⟩

/-- C6: a bar constructed with zero stages (`createBar`), after a successful
descriptor fetch and the `running` entry, holds exactly one stage: blank
(empty stage name, no parameters, not submitted), at index 0, with
focusOnInit = false, hideDelete = true, and a reference to the fetched
catalog. -/
theorem c6_initialize (port : Nat) (fetched : Catalog) (fresh : Nat) :
    (initializeBar (createBar port) fetched fresh).map
        (fun l => l.map (fun e =>
          (e.data.stage, e.data.index, e.data.focusOnInit,
           e.data.hideDelete, e.data.stageInfo, e.data.submitted,
           e.data.parameters))) =
      some [("", 0, false, true, some fetched, false, [])] := rfl

/-- Helper for C4: reading `selectedLabels` after writing through its setter
returns the mapping derived from the untouched camelCase `selectedLabels`
field, i.e. the pre-write mapping, whatever mapping was written. -/
theorem selectedLabelsGet_after_set (sd : StateDescription)
    (value : List (String × SelectedLabel)) :
    selectedLabelsGet (some (selectedLabelsSet sd value).1) =
      selectedLabelsGet (some sd) := rfl

/-- C4 at the failing input: writing the one-key mapping "a" through the
`selectedLabels` setter and reading `selectedLabels` back yields the empty
mapping, not the written one — the setter stores under the snake_case
`selected_labels` key while the getter reads the camelCase `selectedLabels`
key, so the written key set is lost. -/
theorem c4_round_trip_fails :
    selectedLabelsGet (some (selectedLabelsSet c4State [("a", c4Label)]).1) =
      [] ∧
    [("a", c4Label)] ≠ ([] : List (String × SelectedLabel)) :=
  ⟨rfl, by decide⟩

/-- C7: the `onCompleted` success handler of the commit mutation produces
the snapshot whose `view`, `viewCls`, `sampleFields` and `frameFields` hold
the server's canonical values (the two field schemas passed through
`collapseFields`) and whose every other field is the previous snapshot's;
the four writes happen in the single transaction setter, one total function
on the snapshot, so no reader state exists with only part of the four
applied. -/
theorem c7_onCompleted_frame (collapseFields : List String → List String)
    (resp : SetViewResponse) (snap : RootSnapshot) :
    onCompleted collapseFields resp snap =
      { view := resp.view, viewCls := resp.viewCls,
        sampleFields := collapseFields resp.sampleFields,
        frameFields := collapseFields resp.frameFields,
        stateDescription := snap.stateDescription,
        modal := snap.modal } := rfl

/-- Helper for C8: when every attempt yields null, the polling loop never
returns for any amount of fuel — there is no retry cap and no error
result. -/
theorem fiftyoneLoop_none_of_all_none {R : Type} (truthy : R → Bool)
    (attempts : Nat → Option R) (h : ∀ m, attempts m = none) :
    ∀ fuel start, fiftyoneLoop truthy attempts fuel start = none := by
  intro fuel
  induction fuel with
  | zero => intro start; rfl
  | succ f ih => intro start; simp [fiftyoneLoop, h, ih]

/-- Helper for C8, generalized over the start index: with the first `k`
attempts after `start` null and attempt `start + k` returning `r`, the loop
is still running with fuel at most `k` and returns `r` with fuel beyond `k`,
having slept 2000 ms per null attempt. -/
theorem fiftyoneLoop_go {R : Type} (truthy : R → Bool)
    (attempts : Nat → Option R) :
    ∀ (k start : Nat) (r : R),
      (∀ m, m < k → attempts (start + m) = none) →
      attempts (start + k) = some r →
      (∀ fuel, fuel ≤ k → fiftyoneLoop truthy attempts fuel start = none) ∧
      (∀ fuel, k < fuel →
        fiftyoneLoop truthy attempts fuel start =
          some (r, 2000 * k + (if truthy r then 0 else 2000))) := by
  intro k
  induction k with
  | zero =>
      intro start r _ hs
      have hs0 : attempts start = some r := by simpa using hs
      constructor
      · intro fuel hf
        have hz : fuel = 0 := Nat.le_zero.mp hf
        subst hz
        rfl
      · intro fuel hf
        obtain ⟨f, rfl⟩ : ∃ f, fuel = f + 1 :=
          ⟨fuel - 1, (Nat.succ_pred_eq_of_pos hf).symm⟩
        cases htr : truthy r <;> simp [fiftyoneLoop, hs0, htr]
  | succ k ih =>
      intro start r hfail hs
      have h0 : attempts start = none := by
        simpa using hfail 0 (Nat.succ_pos k)
      have ih2 := ih (start + 1) r
        (fun m hm => by
          have h3 := hfail (m + 1) (Nat.succ_lt_succ hm)
          have h4 : start + (m + 1) = start + 1 + m := by omega
          rwa [h4] at h3)
        (by
          have h4 : start + (k + 1) = start + 1 + k := by omega
          rwa [h4] at hs)
      constructor
      · intro fuel hf
        cases fuel with
        | zero => rfl
        | succ f =>
            have hfk : f ≤ k := Nat.le_of_succ_le_succ hf
            simp [fiftyoneLoop, h0, ih2.1 f hfk]
      · intro fuel hf
        cases fuel with
        | zero => omega
        | succ f =>
            have hfk : k < f := Nat.lt_of_succ_lt_succ hf
            have hr := ih2.2 f hfk
            simp only [fiftyoneLoop, h0, hr, Option.map_some]
            cases htr : truthy r <;> simp [htr] <;> omega

/-- C8: the `fiftyone` polling loop keeps retrying, sleeping 2000 ms after
each null attempt (fetch failure or null body) with no retry cap — with
fuel at or below the index of the first non-null attempt it has not yet
returned — and once a non-null response exists it returns exactly that
response (a JS-falsy non-null response incurs one extra trailing sleep, per
the `if (response) break` test). -/
theorem c8_fiftyone_poll {R : Type} (truthy : R → Bool)
    (attempts : Nat → Option R) (n : Nat) (r : R)
    (hfail : ∀ m, m < n → attempts m = none)
    (hsucc : attempts n = some r) :
    (∀ fuel, fuel ≤ n → fiftyoneLoop truthy attempts fuel 0 = none) ∧
    (∀ fuel, n < fuel →
      fiftyoneLoop truthy attempts fuel 0 =
        some (r, 2000 * n + (if truthy r then 0 else 2000))) := by
  have h2 := fiftyoneLoop_go truthy attempts n 0 r
    (fun m hm => by simpa using hfail m hm) (by simpa using hsucc)
  exact h2

/-- Witness for C8: three null attempts then the response 42, all responses
truthy; the loop is still running with fuel 3 and returns (42, 6000 ms of
sleep) with more fuel. -/
theorem c8_fiftyone_poll_witness :
    (∀ m, m < 3 → c8Attempts m = none) ∧ c8Attempts 3 = some 42 ∧
    ((∀ fuel, fuel ≤ 3 → fiftyoneLoop c8Truthy c8Attempts fuel 0 = none) ∧
     (∀ fuel, 3 < fuel →
       fiftyoneLoop c8Truthy c8Attempts fuel 0 =
         some (42, 2000 * 3 + (if c8Truthy 42 then 0 else 2000)))) :=
  ⟨by decide, by decide,
   c8_fiftyone_poll c8Truthy c8Attempts 3 42 (by decide) (by decide)⟩

/-- C9: the lookup function returned by `getTarget` yields the per-field
mask-target mapping's value for the target whenever the field is a key of
that mapping, and otherwise yields the dataset-wide default mapping's value
for the target. -/
theorem c9_getTarget_spec (sd : StateDescription) (field target : String) :
    (∀ inner, objGet (targetsSel sd).2 field = some inner →
        getTarget sd field target = objGet inner target) ∧
    (objGet (targetsSel sd).2 field = none →
        getTarget sd field target = objGet (targetsSel sd).1 target) := by
  constructor
  · intro inner hi
    simp [getTarget, hi]
  · intro hn
    simp [getTarget, hn]

/-- Witness for C9: on the concrete state, "ground_truth" is a key of the
per-field mapping and resolves there, while "predictions" is not and falls
back to the dataset-wide default mapping. -/
theorem c9_getTarget_spec_witness :
    (objGet (targetsSel c9State).2 "ground_truth" = some [("1", "car")] ∧
     getTarget c9State "ground_truth" "1" = objGet [("1", "car")] "1") ∧
    (objGet (targetsSel c9State).2 "predictions" = none ∧
     getTarget c9State "predictions" "1" = objGet (targetsSel c9State).1 "1") :=
  ⟨⟨by decide, (c9_getTarget_spec c9State "ground_truth" "1").1 _ (by decide)⟩,
   ⟨by decide, (c9_getTarget_spec c9State "predictions" "1").2 (by decide)⟩⟩

/-- C10: when the state description is absent, or present without a
selected-labels sequence, reading `selectedLabels` yields the empty mapping
rather than failing, and `selectedLabelIds` yields the empty key set. -/
theorem c10_selected_defaults (sd : Option StateDescription)
    (h : sd = none ∨ ∃ s, sd = some s ∧ s.selectedLabels = none) :
    selectedLabelsGet sd = [] ∧ selectedLabelIds sd = [] := by
  rcases h with rfl | ⟨s, rfl, hs⟩
  · exact ⟨rfl, rfl⟩
  · constructor
    · simp [selectedLabelsGet, hs]
    · simp [selectedLabelIds, selectedLabelsGet, hs]

/-- Witness for C10 at the absent state description. -/
theorem c10_selected_defaults_witness :
    selectedLabelsGet (none : Option StateDescription) = [] ∧
    selectedLabelIds (none : Option StateDescription) = [] :=
  c10_selected_defaults none (Or.inl rfl)
